import Mathlib

/-!
# Verification of the io-adapter crate

Shallow embedding of `src/lib.rs` of the io-adapter crate: the `ReadAdapter`
and `WriteAdapter` traits (each with a defaulted `try_into_inner`), and their
three conformance implementations over `std::io::BufReader`,
`std::io::BufWriter` and `serde_json::Serializer`.

The crate's implementations delegate to `std` / `serde_json`, so the relevant
behavior of those external collaborators is embedded faithfully as well:

* an abstract writable stream is a `IOWriter` state type together with a
  `write` operation that consumes a prefix of the supplied bytes or fails;
* `std::io::BufWriter` is a state `⟨inner, buf, cap⟩`; its `flush_buf` loop,
  `write`, `write_all` and the fallible `into_inner` are translated from the
  standard library;
* `std::io::BufReader` is a state `⟨inner, buffer⟩` where `buffer` holds the
  bytes read ahead from `inner` but not yet consumed by the caller
  (`buf[pos..cap]` in the standard library); `fill_buf` / `consume` are
  translated from the standard library, with the underlying readable stream
  abstracted as a `IOReader`;
* `serde_json::Serializer` is a state `⟨writer⟩` with no buffer of its own;
  serialization emits byte fragments through `writer.write_all`.

Bytes are modelled as `Nat`, byte buffers as `List Nat`, I/O errors as a
descriptive message string, and a Rust panic as the `panicked` constructor of
`PanicOr`.
-/

/-- An I/O error, carrying its descriptive message (the model of
`std::io::Error`; its `Debug` rendering is modelled as the message itself). -/
structure IOError where
  msg : String
deriving DecidableEq, Repr

/-- The error returned by a failed write of zero bytes
(`ErrorKind::WriteZero`, "failed to write the buffered data"). -/
def writeZeroError : IOError :=
  ⟨"failed to write the buffered data"⟩

/-- The outcome of a Rust computation that may `panic!`: either a normal
value or a panic with its message. -/
inductive PanicOr (α : Type u) where
  | panicked : String → PanicOr α
  | ok : α → PanicOr α
deriving DecidableEq, Repr

/-- `std::io::IntoInnerError<A>`: a failed unwrap, carrying the adapter `A`
(with its buffered data) and the underlying I/O error.  `inner` models
`IntoInnerError::into_inner`, `error` models `IntoInnerError::error`. -/
structure IntoInnerError (A : Type u) where
  inner : A
  error : IOError
deriving DecidableEq, Repr

/-- An abstract writable stream: a state of type `W` and a `write` operation
that, given the state and a byte buffer, either fails with an `IOError` or
returns the new state and how many leading bytes of the buffer it accepted
(the model of the `std::io::Write` trait's `write`). -/
structure IOWriter (W : Type u) where
  write : W → List Nat → Except IOError (W × Nat)

/-- An abstract readable stream: a state of type `R` and a `read` operation
that, asked for up to `n` bytes, returns the new state and the bytes read
(the model of the `std::io::Read` trait's `read` into a buffer of size `n`;
read errors are not needed by any claim and are not modelled). -/
structure IOReader (R : Type u) where
  read : R → Nat → R × List Nat

/-- The default capacity used by `BufReader::new` and `BufWriter::new`
(`DEFAULT_BUF_SIZE`). -/
def DEFAULT_BUF_SIZE : Nat := 8192

/-- `std::io::BufWriter<W>`: the underlying writer, the buffered-but-unwritten
bytes, and the buffer capacity. -/
structure BufWriter (W : Type u) where
  inner : W
  buf : List Nat
  cap : Nat
deriving DecidableEq, Repr

/-- `BufWriter::new`: empty buffer with the default capacity. -/
def BufWriter.new (w : W) : BufWriter W :=
  ⟨w, [], DEFAULT_BUF_SIZE⟩

/-- `BufWriter::flush_buf`: repeatedly hand the remaining buffered bytes to
the underlying writer until none remain, a write accepts zero bytes
(`WriteZero` error), or a write fails.  Returns the final writer state, the
bytes that remain unwritten (the written prefix is drained from the buffer
even on failure, as in the standard library), and the error if any. -/
def flushBuf (wr : IOWriter W) (w : W) (buf : List Nat) :
    W × List Nat × Option IOError :=
  if hbuf : buf = [] then
    (w, [], none)
  else
    match wr.write w buf with
    | .error e => (w, buf, some e)
    | .ok (w', n) =>
      if hn : n = 0 then
        (w', buf, some writeZeroError)
      else
        flushBuf wr w' (buf.drop n)
termination_by buf.length
decreasing_by
  have h1 : 0 < buf.length := List.length_pos.mpr hbuf
  simp only [List.length_drop]
  omega

/-- `BufWriter::write`: if the incoming bytes would overflow the buffer,
flush first (propagating any flush error); then either write large inputs
straight through to the underlying writer or append small inputs to the
buffer.  The returned `BufWriter` is the (possibly mutated) `self`. -/
def BufWriter.write (wr : IOWriter W) (bw : BufWriter W) (data : List Nat) :
    BufWriter W × Except IOError Nat :=
  let step :=
    if bw.buf.length + data.length > bw.cap then
      match flushBuf wr bw.inner bw.buf with
      | (w', rem, err?) => ((⟨w', rem, bw.cap⟩ : BufWriter W), err?)
    else
      (bw, none)
  match step with
  | (bw', some e) => (bw', .error e)
  | (bw', none) =>
    if data.length ≥ bw'.cap then
      match wr.write bw'.inner data with
      | .error e => (bw', .error e)
      | .ok (w', n) => ((⟨w', bw'.buf, bw'.cap⟩ : BufWriter W), .ok n)
    else
      ((⟨bw'.inner, bw'.buf ++ data, bw'.cap⟩ : BufWriter W), .ok data.length)

/-- `Write::write_all` for a `BufWriter`: loop `write` until all bytes are
accepted, a write accepts zero bytes (`WriteZero` error), or a write fails. -/
def BufWriter.writeAll (wr : IOWriter W) (bw : BufWriter W) (data : List Nat) :
    BufWriter W × Option IOError :=
  if hdat : data = [] then
    (bw, none)
  else
    match BufWriter.write wr bw data with
    | (bw', .error e) => (bw', some e)
    | (bw', .ok n) =>
      if hn : n = 0 then
        (bw', some writeZeroError)
      else
        BufWriter.writeAll wr bw' (data.drop n)
termination_by data.length
decreasing_by
  have h1 : 0 < data.length := List.length_pos.mpr hdat
  simp only [List.length_drop]
  omega

/-- `std::io::BufWriter::into_inner`: flush the buffer; on success return the
underlying writer, on failure return an `IntoInnerError` carrying `self`
(with its partially drained buffer) and the I/O error. -/
def BufWriter.into_inner (wr : IOWriter W) (bw : BufWriter W) :
    Except (IntoInnerError (BufWriter W)) W :=
  match flushBuf wr bw.inner bw.buf with
  | (w', _, none) => .ok w'
  | (w', rem, some e) => .error ⟨⟨w', rem, bw.cap⟩, e⟩

/-- `Write::write_all` on a bare writer: hand bytes to `write` until all are
accepted, mapping an accepted count of zero to a `WriteZero` error.  The loop
is the same as `flush_buf`; only the final writer state (or the error) is
returned. -/
def IOWriter.write_all (wr : IOWriter W) (w : W) (data : List Nat) :
    Except IOError W :=
  match flushBuf wr w data with
  | (w', _, none) => .ok w'
  | (_, _, some e) => .error e

/-- `std::io::BufReader<R>`: the underlying reader and the bytes read ahead
into the internal buffer but not yet consumed by the caller
(`buf[pos..cap]`). -/
structure BufReader (R : Type u) where
  inner : R
  buffer : List Nat
deriving DecidableEq, Repr

/-- `BufReader::new`: empty read-ahead buffer (capacity `DEFAULT_BUF_SIZE`,
passed to `fill_buf` on use). -/
def BufReader.new (r : R) : BufReader R :=
  ⟨r, []⟩

/-- `BufReader::fill_buf`: if the buffer is exhausted, read up to `cap` bytes
from the underlying reader into it; return the updated state and the view of
the buffered bytes. -/
def BufReader.fill_buf (rd : IOReader R) (cap : Nat) (br : BufReader R) :
    BufReader R × List Nat :=
  if br.buffer = [] then
    match rd.read br.inner cap with
    | (r', bytes) => ((⟨r', bytes⟩ : BufReader R), bytes)
  else
    (br, br.buffer)

/-- `BufReader::consume`: mark `amt` buffered bytes as consumed by the
caller. -/
def BufReader.consume (br : BufReader R) (amt : Nat) : BufReader R :=
  ⟨br.inner, br.buffer.drop amt⟩

/-- `serde_json::Serializer<W>`: holds the underlying writer and no byte
buffer of its own (the formatter is stateless for byte output). -/
structure Serializer (W : Type u) where
  writer : W
deriving DecidableEq, Repr

/-- `serde_json::Serializer::new`. -/
def Serializer.new (w : W) : Serializer W :=
  ⟨w⟩

/-- Serialization through a `serde_json::Serializer`: every formatter call
writes a byte fragment straight through to the underlying writer via
`write_all`; encoding a value emits a sequence of such fragments. -/
def Serializer.emit (wr : IOWriter W) (s : Serializer W) :
    List (List Nat) → Except IOError (Serializer W)
  | [] => .ok s
  | c :: rest =>
    match IOWriter.write_all wr s.writer c with
    | .error e => .error e
    | .ok w' => Serializer.emit wr (⟨w'⟩ : Serializer W) rest

/-- The `ReadAdapter` trait's provided default `try_into_inner`:
`Ok(self.into_inner())` — delegate to `into_inner` and always report
success. -/
def ReadAdapter.try_into_inner (into_inner : A → R) (a : A) :
    Except (IntoInnerError A) R :=
  .ok (into_inner a)

/-- The `WriteAdapter` trait's provided default `try_into_inner`:
`Ok(self.into_inner())` — delegate to `into_inner` and always report
success. -/
def WriteAdapter.try_into_inner (into_inner : A → W) (a : A) :
    Except (IntoInnerError A) W :=
  .ok (into_inner a)

namespace BufReaderImpl

/-- `impl<R: Read> ReadAdapter<R> for io::BufReader<R>`, `wrap`:
`io::BufReader::new(reader)`. -/
def wrap (r : R) : BufReader R :=
  BufReader.new r

/-- `impl<R: Read> ReadAdapter<R> for io::BufReader<R>`, `into_inner`:
delegates to `std::io::BufReader::into_inner`, which discards the read-ahead
buffer and returns the underlying reader (it cannot fail). -/
def into_inner (br : BufReader R) : R :=
  br.inner

/-- The `BufReader` impl does not override `try_into_inner`: it inherits the
trait's default. -/
def try_into_inner (br : BufReader R) : Except (IntoInnerError (BufReader R)) R :=
  ReadAdapter.try_into_inner into_inner br

end BufReaderImpl

namespace BufWriterImpl

/-- `impl<W: Write> WriteAdapter<W> for io::BufWriter<W>`, `wrap`:
`io::BufWriter::new(writer)`. -/
def wrap (w : W) : BufWriter W :=
  BufWriter.new w

/-- `impl<W: Write> WriteAdapter<W> for io::BufWriter<W>`, `into_inner`:
`match self.into_inner() { Ok(writer) => writer, Err(error) =>
panic!("Failed to unwrap BufWriter: {:?}", error.error()) }`. -/
def into_inner (wr : IOWriter W) (bw : BufWriter W) : PanicOr W :=
  match BufWriter.into_inner wr bw with
  | .ok w => .ok w
  | .error e => .panicked ("Failed to unwrap BufWriter: " ++ e.error.msg)

/-- `impl<W: Write> WriteAdapter<W> for io::BufWriter<W>` overrides
`try_into_inner`: it delegates to the fallible
`std::io::BufWriter::into_inner`. -/
def try_into_inner (wr : IOWriter W) (bw : BufWriter W) :
    Except (IntoInnerError (BufWriter W)) W :=
  BufWriter.into_inner wr bw

end BufWriterImpl

namespace SerializerImpl

/-- `impl<W: Write> WriteAdapter<W> for json::Serializer<W>`, `wrap`:
`json::Serializer::new(writer)`. -/
def wrap (w : W) : Serializer W :=
  Serializer.new w

/-- `impl<W: Write> WriteAdapter<W> for json::Serializer<W>`, `into_inner`:
delegates to `serde_json::Serializer::into_inner`, which returns the
underlying writer (it cannot fail). -/
def into_inner (s : Serializer W) : W :=
  s.writer

/-- The `Serializer` impl does not override `try_into_inner`: it inherits the
trait's default. -/
def try_into_inner (s : Serializer W) : Except (IntoInnerError (Serializer W)) W :=
  WriteAdapter.try_into_inner into_inner s

end SerializerImpl

/-- An in-memory byte sink (`Vec<u8>` as a writer): the state is the list of
bytes written so far; `write` appends everything it is given and never
fails. -/
def sinkWriter : IOWriter (List Nat) :=
  ⟨fun w data => .ok (w ++ data, data.length)⟩

/-- An in-memory byte source (`&[u8]` as a reader): the state is the list of
bytes not yet read; `read` yields up to the requested number of bytes. -/
def listReader : IOReader (List Nat) :=
  ⟨fun r n => (r.drop n, r.take n)⟩

/-- A writer whose underlying stream rejects every write (e.g. a write quota
has been exceeded); its state is trivial. -/
def failWriter : IOWriter Unit :=
  ⟨fun _ _ => .error ⟨"write quota exceeded"⟩⟩

/-! ## Helper lemmas about the embedded library code -/

theorem flushBuf_nil (wr : IOWriter W) (w : W) :
    flushBuf wr w [] = (w, [], none) := by
  unfold flushBuf
  simp

theorem flushBuf_sink (w : List Nat) (buf : List Nat) :
    flushBuf sinkWriter w buf = (w ++ buf, [], none) := by
  cases buf with
  | nil => simp [flushBuf_nil]
  | cons b rest =>
    unfold flushBuf
    simp [sinkWriter, List.drop_length, flushBuf_nil]

/-- `flush_buf` only ever drains an already-written prefix of the buffer: the
bytes it reports as remaining are a suffix of the original buffer. -/
theorem flushBuf_split (wr : IOWriter W) (buf : List Nat) (w : W) :
    ∃ pre, buf = pre ++ (flushBuf wr w buf).2.1 := by
  generalize hl : buf.length = n
  induction n using Nat.strong_induction_on generalizing buf w with
  | _ n ih =>
    by_cases hbuf : buf = []
    · exact ⟨[], by simp [hbuf, flushBuf_nil]⟩
    · rw [flushBuf]
      rw [dif_neg hbuf]
      match h : wr.write w buf with
      | .error e => exact ⟨[], by simp [h]⟩
      | .ok (w', k) =>
        by_cases hk : k = 0
        · exact ⟨[], by simp [h, hk]⟩
        · simp only [h, dif_neg hk]
          have hlen : (buf.drop k).length < n := by
            have h1 : 0 < buf.length := List.length_pos.mpr hbuf
            simp only [List.length_drop]
            omega
          obtain ⟨pre', hpre⟩ := ih (buf.drop k).length hlen (buf.drop k) w' rfl
          refine ⟨buf.take k ++ pre', ?_⟩
          conv_lhs => rw [← List.take_append_drop k buf]
          rw [List.append_assoc, ← hpre]

/-- A `BufWriter` write into an in-memory sink always succeeds in full and
conserves the bytes: sink contents followed by buffered bytes grow by exactly
the written bytes, in order. -/
theorem bufWriter_write_sink (bw : BufWriter (List Nat)) (data : List Nat) :
    ∃ bw', BufWriter.write sinkWriter bw data = (bw', Except.ok data.length) ∧
      bw'.inner ++ bw'.buf = bw.inner ++ bw.buf ++ data ∧ bw'.cap = bw.cap := by
  unfold BufWriter.write
  by_cases h1 : bw.buf.length + data.length > bw.cap
  · simp only [h1, if_true, flushBuf_sink]
    by_cases h2 : data.length ≥ bw.cap
    · refine ⟨⟨bw.inner ++ bw.buf ++ data, [], bw.cap⟩, ?_⟩
      simp [h2, sinkWriter]
    · refine ⟨⟨bw.inner ++ bw.buf, [] ++ data, bw.cap⟩, ?_⟩
      simp [h2]
  · simp only [h1, if_false]
    by_cases h2 : data.length ≥ bw.cap
    · have hnil : bw.buf = [] := by
        have := List.eq_nil_of_length_eq_zero (l := bw.buf) (by omega)
        exact this
      refine ⟨⟨bw.inner ++ data, bw.buf, bw.cap⟩, ?_⟩
      simp [h2, sinkWriter, hnil]
    · refine ⟨⟨bw.inner, bw.buf ++ data, bw.cap⟩, ?_⟩
      simp [h2, List.append_assoc]

/-- `write_all` through a `BufWriter` into an in-memory sink always succeeds
and conserves the bytes, in order. -/
theorem bufWriter_writeAll_sink (bw : BufWriter (List Nat)) (data : List Nat) :
    ∃ bw', BufWriter.writeAll sinkWriter bw data = (bw', none) ∧
      bw'.inner ++ bw'.buf = bw.inner ++ bw.buf ++ data ∧ bw'.cap = bw.cap := by
  cases data with
  | nil =>
    refine ⟨bw, ?_, by simp, rfl⟩
    rw [BufWriter.writeAll]
    simp
  | cons b rest =>
    obtain ⟨bw', hw, hinv, hcap⟩ := bufWriter_write_sink bw (b :: rest)
    rw [BufWriter.writeAll]
    rw [dif_neg (by simp : ¬ (b :: rest : List Nat) = [])]
    rw [hw]
    have hdrop : List.drop (b :: rest).length (b :: rest) = ([] : List Nat) :=
      List.drop_length (b :: rest)
    simp only [List.length_cons] at hdrop
    simp only [List.length_cons, Nat.succ_ne_zero, dif_neg, not_false_iff,
      dite_false, hdrop]
    rw [BufWriter.writeAll]
    simp only [dif_pos rfl]
    exact ⟨bw', rfl, hinv, hcap⟩

/-- `std::io::BufWriter::into_inner` over an in-memory sink: the pending
buffered bytes, and nothing else, are appended to the sink, and the sink is
returned. -/
theorem bufWriter_into_inner_sink (bw : BufWriter (List Nat)) :
    BufWriter.into_inner sinkWriter bw = .ok (bw.inner ++ bw.buf) := by
  unfold BufWriter.into_inner
  simp [flushBuf_sink]

/-- Serialization into an in-memory sink writes every emitted fragment
through, in order, and never fails. -/
theorem serializer_emit_sink (w : List Nat) (chunks : List (List Nat)) :
    Serializer.emit sinkWriter ⟨w⟩ chunks = .ok ⟨w ++ chunks.flatten⟩ := by
  induction chunks generalizing w with
  | nil => simp [Serializer.emit]
  | cons c rest ih =>
    simp [Serializer.emit, IOWriter.write_all, flushBuf_sink, ih,
      List.append_assoc]

/-! ## The claims -/

/-- Claim C1: for the two conformance implementations that do not override it
(the buffered-read adapter over `BufReader` and the structured-serializer
adapter over `json::Serializer`), the default `try_into_inner` is behaviorally
identical to `Ok(into_inner(a))`: it is exactly the trait default, it always
returns success, and the stream it returns is exactly the one `into_inner`
returns. -/
theorem default_tryIntoInner_is_ok_intoInner {R W : Type u}
    (br : BufReader R) (s : Serializer W) :
    BufReaderImpl.try_into_inner br =
      ReadAdapter.try_into_inner BufReaderImpl.into_inner br ∧
    BufReaderImpl.try_into_inner br = Except.ok (BufReaderImpl.into_inner br) ∧
    SerializerImpl.try_into_inner s =
      WriteAdapter.try_into_inner SerializerImpl.into_inner s ∧
    SerializerImpl.try_into_inner s = Except.ok (SerializerImpl.into_inner s) :=
  ⟨rfl, rfl, rfl, rfl⟩

/-- Claim C2: for the buffered-write adapter, if flushing the pending buffered
bytes fails during `into_inner`, then `into_inner` panics with the message
`"Failed to unwrap BufWriter: "` followed by the underlying I/O cause, and it
never returns a stream in that case. -/
theorem bufWriter_intoInner_panics_on_flush_failure {W : Type u}
    (wr : IOWriter W) (bw : BufWriter W) (w' : W) (rem : List Nat) (e : IOError)
    (h : flushBuf wr bw.inner bw.buf = (w', rem, some e)) :
    BufWriterImpl.into_inner wr bw =
      PanicOr.panicked ("Failed to unwrap BufWriter: " ++ e.msg) ∧
    ∀ v : W, BufWriterImpl.into_inner wr bw ≠ PanicOr.ok v := by
  unfold BufWriterImpl.into_inner BufWriter.into_inner
  rw [h]
  exact ⟨rfl, fun v hc => PanicOr.noConfusion hc⟩

/-- Witness for C2: a writer over which every write fails with
"write quota exceeded" makes `into_inner` of a buffered-write adapter holding
bytes `[1, 2]` panic, the cause appearing in the message. -/
theorem bufWriter_intoInner_panics_on_flush_failure_witness :
    flushBuf failWriter () [1, 2] = ((), [1, 2], some ⟨"write quota exceeded"⟩) ∧
    BufWriterImpl.into_inner failWriter ⟨(), [1, 2], DEFAULT_BUF_SIZE⟩ =
      PanicOr.panicked ("Failed to unwrap BufWriter: " ++ "write quota exceeded") := by
  have h : flushBuf failWriter ((() : Unit)) [1, 2] =
      ((), [1, 2], some ⟨"write quota exceeded"⟩) := by
    rw [flushBuf]
    simp [failWriter]
  exact ⟨h,
    (bufWriter_intoInner_panics_on_flush_failure failWriter
      ⟨(), [1, 2], DEFAULT_BUF_SIZE⟩ () [1, 2] ⟨"write quota exceeded"⟩ h).1⟩

/-- Claim C3: the buffered-write adapter overrides `try_into_inner` so that a
failed flush returns a structured error carrying the underlying I/O cause `e`
together with the still-owned adapter: the adapter in the error holds the
stream (`w'`) and exactly the buffered-but-unwritten bytes `rem`, which are
what is left of the original buffer after the already-delivered prefix. -/
theorem bufWriter_tryIntoInner_error_carries_adapter {W : Type u}
    (wr : IOWriter W) (bw : BufWriter W) (w' : W) (rem : List Nat) (e : IOError)
    (h : flushBuf wr bw.inner bw.buf = (w', rem, some e)) :
    BufWriterImpl.try_into_inner wr bw =
      Except.error ⟨⟨w', rem, bw.cap⟩, e⟩ ∧
    ∃ pre, bw.buf = pre ++ rem := by
  constructor
  · unfold BufWriterImpl.try_into_inner BufWriter.into_inner
    rw [h]
  · have hs := flushBuf_split wr bw.buf bw.inner
    rw [h] at hs
    exact hs

/-- Witness for C3: over the always-failing writer, `try_into_inner` of an
adapter buffering `[3]` returns an error carrying both the cause and the
adapter with its unwritten byte intact. -/
theorem bufWriter_tryIntoInner_error_carries_adapter_witness :
    flushBuf failWriter () [3] = ((), [3], some ⟨"write quota exceeded"⟩) ∧
    BufWriterImpl.try_into_inner failWriter ⟨(), [3], DEFAULT_BUF_SIZE⟩ =
      Except.error ⟨⟨(), [3], DEFAULT_BUF_SIZE⟩, ⟨"write quota exceeded"⟩⟩ := by
  have h : flushBuf failWriter ((() : Unit)) [3] =
      ((), [3], some ⟨"write quota exceeded"⟩) := by
    rw [flushBuf]
    simp [failWriter]
  exact ⟨h,
    (bufWriter_tryIntoInner_error_carries_adapter failWriter
      ⟨(), [3], DEFAULT_BUF_SIZE⟩ () [3] ⟨"write quota exceeded"⟩ h).1⟩

/-- Claim C4: over an in-memory byte sink, `into_inner` of the buffered-write
adapter causes exactly the pending buffered bytes — no more, no fewer — to
reach the sink, appended in their original order, and returns the sink; in
particular, after writing any byte sequence `data` through the adapter (via
`write_all`, for any length, including lengths exceeding the buffer
capacity) and calling `into_inner`, the sink holds exactly `data` in order. -/
theorem bufWriter_intoInner_flushes_pending_bytes
    (bw : BufWriter (List Nat)) (data : List Nat) :
    BufWriterImpl.into_inner sinkWriter bw = PanicOr.ok (bw.inner ++ bw.buf) ∧
    (BufWriter.writeAll sinkWriter (BufWriterImpl.wrap []) data).2 = none ∧
    BufWriterImpl.into_inner sinkWriter
        (BufWriter.writeAll sinkWriter (BufWriterImpl.wrap []) data).1 =
      PanicOr.ok data := by
  refine ⟨?_, ?_⟩
  · unfold BufWriterImpl.into_inner
    rw [bufWriter_into_inner_sink]
  · obtain ⟨bw', hw, hinv, hcap⟩ :=
      bufWriter_writeAll_sink (BufWriterImpl.wrap []) data
    rw [hw]
    refine ⟨rfl, ?_⟩
    unfold BufWriterImpl.into_inner
    rw [bufWriter_into_inner_sink, hinv]
    simp [BufWriterImpl.wrap, BufWriter.new]

/-- Claim C5: wrapping then immediately unwrapping with no intervening I/O is
a no-op for all three conformance implementations: `try_into_inner (wrap s)`
succeeds and returns the very stream `s` (hence with identical subsequent
observable content).  For the buffered writer this holds over every
underlying writer, since the empty buffer means no flush failure can occur. -/
theorem tryIntoInner_wrap_roundtrip {R W U : Type u}
    (r : R) (wr : IOWriter W) (w : W) (u : U) :
    BufReaderImpl.try_into_inner (BufReaderImpl.wrap r) = Except.ok r ∧
    BufWriterImpl.try_into_inner wr (BufWriterImpl.wrap w) = Except.ok w ∧
    SerializerImpl.try_into_inner (SerializerImpl.wrap u) = Except.ok u := by
  refine ⟨rfl, ?_, rfl⟩
  unfold BufWriterImpl.try_into_inner BufWriter.into_inner BufWriterImpl.wrap
    BufWriter.new
  rw [flushBuf_nil]

/-- Claim C6: in all three conformance implementations `wrap` is a total
function straight into the adapter type (no error or panic in its codomain,
hence no failure path), and the adapter it returns holds exactly the given
stream, with an empty internal buffer where one exists. -/
theorem wrap_always_succeeds {R W U : Type u} (r : R) (w : W) (u : U) :
    BufReaderImpl.wrap r = ⟨r, []⟩ ∧
    BufWriterImpl.wrap w = ⟨w, [], DEFAULT_BUF_SIZE⟩ ∧
    SerializerImpl.wrap u = ⟨u⟩ ∧
    (BufReaderImpl.wrap r).inner = r ∧
    (BufWriterImpl.wrap w).inner = w ∧
    (SerializerImpl.wrap u).writer = u :=
  ⟨rfl, rfl, rfl, rfl, rfl, rfl⟩

/-- Claim C7: the structured-serializer adapter's `into_inner` always
succeeds and returns the underlying writer unchanged, its `try_into_inner` is
the inherited trait default (and thus also always succeeds with the same
writer), and after serialization into an in-memory sink — every emitted
fragment written straight through — the sink holds exactly the emitted bytes,
with no additional trailing buffered bytes. -/
theorem serializer_intoInner_returns_writer {W : Type u}
    (s : Serializer W) (w0 : List Nat) (chunks : List (List Nat)) :
    SerializerImpl.into_inner s = s.writer ∧
    SerializerImpl.try_into_inner s =
      WriteAdapter.try_into_inner SerializerImpl.into_inner s ∧
    SerializerImpl.try_into_inner s = Except.ok s.writer ∧
    ∃ s', Serializer.emit sinkWriter (SerializerImpl.wrap w0) chunks =
        Except.ok s' ∧
      SerializerImpl.into_inner s' = w0 ++ chunks.flatten := by
  refine ⟨rfl, rfl, rfl, ⟨w0 ++ chunks.flatten⟩, ?_, rfl⟩
  exact serializer_emit_sink w0 chunks

/-- Counterexample to claim C9 as stated: its final subclause says the round
trip is lossless *only when* no intervening reads occurred.  Here a read does
occur through the buffered-read adapter over the stream `[1]` — `fill_buf`
delivers the byte `1`, which the caller consumes — yet teardown is lossless:
no unconsumed read-ahead bytes remain, `into_inner` returns the empty
remainder of the stream, and the caller's consumed byte together with the
returned stream is exactly the original content. -/
theorem bufReader_lossless_roundtrip_after_reads :
    (BufReader.fill_buf listReader DEFAULT_BUF_SIZE
      (BufReaderImpl.wrap ([1] : List Nat))).2 = [1] ∧
    (BufReader.consume (BufReader.fill_buf listReader DEFAULT_BUF_SIZE
      (BufReaderImpl.wrap ([1] : List Nat))).1 1).buffer = [] ∧
    BufReaderImpl.into_inner
      (BufReader.consume (BufReader.fill_buf listReader DEFAULT_BUF_SIZE
        (BufReaderImpl.wrap ([1] : List Nat))).1 1) = [] ∧
    [1] ++ BufReaderImpl.into_inner
      (BufReader.consume (BufReader.fill_buf listReader DEFAULT_BUF_SIZE
        (BufReaderImpl.wrap ([1] : List Nat))).1 1) = [1] := by
  refine ⟨by decide, by decide, by decide, by decide⟩

/-- Claim C9 (amended): the buffered-read adapter's `into_inner` (and hence
the default `try_into_inner`) returns the underlying reader and discards
whatever bytes sit unconsumed in the read-ahead buffer, so the returned
stream's subsequent byte sequence can omit those bytes (as in the concrete
conjunct, where bytes `2, 3` were read ahead and are lost); the round trip is
lossless exactly when no unconsumed read-ahead bytes remain buffered at
teardown — in particular whenever no reads occurred, but also after reads
that consumed the whole read-ahead buffer. -/
theorem bufReader_intoInner_discards_buffered_bytes {R : Type u}
    (r : R) (br' : BufReader R) (br : BufReader (List Nat)) :
    BufReaderImpl.into_inner br' = br'.inner ∧
    BufReaderImpl.try_into_inner br' = Except.ok br'.inner ∧
    BufReaderImpl.into_inner (BufReaderImpl.wrap r) = r ∧
    (br.buffer ++ br.inner = BufReaderImpl.into_inner br ↔ br.buffer = []) ∧
    (BufReader.consume (BufReader.fill_buf listReader DEFAULT_BUF_SIZE
      (BufReaderImpl.wrap ([1, 2, 3] : List Nat))).1 1).buffer = [2, 3] ∧
    BufReaderImpl.into_inner
      (BufReader.consume (BufReader.fill_buf listReader DEFAULT_BUF_SIZE
        (BufReaderImpl.wrap ([1, 2, 3] : List Nat))).1 1) = [] := by
  refine ⟨rfl, rfl, rfl, ?_, by decide, by decide⟩
  exact List.append_left_eq_self

/-- Claim C10: unwrapping a freshly wrapped buffered-write adapter never
reaches the panic branch: over *every* underlying writer — even one all of
whose writes fail — `into_inner` after `wrap`, with no intervening writes,
returns the writer, because flushing the empty buffer performs no underlying
write at all. -/
theorem bufWriter_wrap_intoInner_never_panics {W : Type u}
    (wr : IOWriter W) (w : W) :
    BufWriterImpl.into_inner wr (BufWriterImpl.wrap w) = PanicOr.ok w := by
  unfold BufWriterImpl.into_inner BufWriter.into_inner BufWriterImpl.wrap
    BufWriter.new
  rw [flushBuf_nil]
